import Mathlib

/-!
Shallow embedding of the celestial-state model of the toy solar-system
application (src/App.tsx, src/components/UniverseView.tsx,
src/components/HomeView.tsx).  JavaScript numbers are modelled as real
numbers (rationals for the decidable moon-phase classifier); the calendar
date is modelled as the integer day offset from the reference date
2025-01-01.  `Math.atan2 y x` is modelled as the complex argument of
`x + y·i`, which matches its convention on all of ℝ².
-/

open Real

namespace Celestial

/-- JavaScript truncation toward zero, used by the `%` operator. -/
def jsTrunc {α : Type} [LinearOrderedField α] [FloorRing α] (x : α) : ℤ :=
  if 0 ≤ x then ⌊x⌋ else -⌊-x⌋

/-- The JavaScript remainder operator `a % b` (sign of the dividend). -/
def jsMod {α : Type} [LinearOrderedField α] [FloorRing α] (a b : α) : α :=
  a - b * (jsTrunc (a / b) : α)

/-- `Math.atan2 y x`, the angle of the point `(x, y)` in `(-π, π]`. -/
noncomputable def atan2 (y x : ℝ) : ℝ := Complex.arg ⟨x, y⟩

/-- The two `while` loops of the moon-drag handler
(`while (progress < 0) progress += 1; while (progress >= 1) progress -= 1`)
add or subtract 1 finitely many times until the value lands in `[0,1)`,
i.e. they compute the fractional part `x - ⌊x⌋`. -/
noncomputable def wrap01 (x : ℝ) : ℝ := Int.fract x

/-- The mutable aggregate of src/App.tsx (`CelestialState` in types.ts);
`date` is the signed number of whole days since 2025-01-01. -/
structure CelestialState where
  time : ℝ
  date : ℤ
  earthOrbitProgress : ℝ
  moonOrbitProgress : ℝ

/-- The initial state: `time = 18.0`, `date` = 2025-01-01, both orbit
progress values zero. -/
def epoch : CelestialState :=
  { time := 18.0, date := 0, earthOrbitProgress := 0, moonOrbitProgress := 0 }

/-- One firing of the `setInterval` callback in src/App.tsx (lines 29–59):
`timeIncrement = 0.02` hours, time wraps modulo 24, the date advances by one
day when the un-wrapped time reaches 24, and the two orbit phases advance by
`timeIncrement / (24 × period)` modulo 1. -/
noncomputable def tick (s : CelestialState) : CelestialState :=
  let timeIncrement : ℝ := 0.02
  let newTime := s.time + timeIncrement
  let earthIncrement := timeIncrement / (24 * 365)
  let moonIncrement := timeIncrement / (24 * 28)
  { time := jsMod newTime 24,
    date := if newTime ≥ 24 then s.date + 1 else s.date,
    earthOrbitProgress := jsMod (s.earthOrbitProgress + earthIncrement) 1,
    moonOrbitProgress := jsMod (s.moonOrbitProgress + moonIncrement) 1 }

/-- Earth phase recomputed by `handleDateChange` (src/App.tsx lines 110–131)
from the integer day offset `daysDiff`: `(daysDiff / 365) % 1`, wrapped
forward if negative. -/
noncomputable def resyncEarthProgress (daysDiff : ℤ) : ℝ :=
  let newEarthProgress := jsMod ((daysDiff : ℝ) / 365) 1
  if newEarthProgress < 0 then newEarthProgress + 1 else newEarthProgress

/-- Moon phase recomputed by `handleDateChange` from the integer day offset:
`(daysDiff / 28) % 1`, wrapped forward if negative. -/
noncomputable def resyncMoonProgress (daysDiff : ℤ) : ℝ :=
  let newMoonProgress := jsMod ((daysDiff : ℝ) / 28) 1
  if newMoonProgress < 0 then newMoonProgress + 1 else newMoonProgress

/-- The accepted branch of `handleDateChange`: store the new date and both
recomputed phases; `time` is not touched. -/
noncomputable def applyDateChange (s : CelestialState) (daysDiff : ℤ) : CelestialState :=
  { time := s.time,
    date := daysDiff,
    earthOrbitProgress := resyncEarthProgress daysDiff,
    moonOrbitProgress := resyncMoonProgress daysDiff }

/-- `handleDateChange` on a parsed input: `new Date(value)` either yields a
valid date (modelled by `some daysDiff`, the floored whole-day offset from
2025-01-01) or `NaN` (modelled by `none`), in which case the guard
`!isNaN(newDate.getTime())` rejects the edit and the state is untouched. -/
noncomputable def handleDateChange (s : CelestialState) (parsed : Option ℤ) : CelestialState :=
  match parsed with
  | none => s
  | some daysDiff => applyDateChange s daysDiff

/-- JavaScript `value.split(':')` on a list of characters: the list of
parts between colons (one empty part for the empty input, as in JS). -/
def splitColon : List Char → List (List Char)
  | [] => [[]]
  | c :: rest =>
      match splitColon rest with
      | [] => [[]]
      | acc :: accs => if c = ':' then [] :: acc :: accs else (c :: acc) :: accs

/-- `Number(str)` for a string of decimal digits (the only shape a part can
have after the input filter); the empty string parses to 0, as in
JavaScript. -/
def digitsVal (l : List Char) : ℕ :=
  l.foldl (fun n c => 10 * n + (c.toNat - 48)) 0

/-- The parse-and-validate phase of `handleTimeChange` (src/App.tsx lines
77–84): `value.replace(/[^0-9:]/g, '')` keeps only digits and colons, the
result is split on `:`, and `hours`/`minutes` are read from the first two
parts with `Number`; a missing minutes part (fewer than two parts) is `NaN`
and is rejected, as are hours outside `[0,24)` and minutes outside `[0,60)`
(digit strings are never negative, so the `>= 0` guards always hold). -/
def parseTimeInput (input : String) : Option (ℕ × ℕ) :=
  match splitColon (input.data.filter (fun c => c.isDigit || c == ':')) with
  | hs :: ms :: _ =>
      let hours := digitsVal hs
      let minutes := digitsVal ms
      if hours < 24 ∧ minutes < 60 then some (hours, minutes) else none
  | _ => none

/-- `handleTimeChange`: on a valid `HH:MM` input set
`time = hours + minutes / 60`; otherwise leave the state unchanged. -/
noncomputable def handleTimeChange (s : CelestialState) (input : String) : CelestialState :=
  match parseTimeInput input with
  | some (h, m) => { s with time := (h : ℝ) + (m : ℝ) / 60 }
  | none => s

/-- Earth placement in the 3D scene (src/components/UniverseView.tsx lines
69–70): `x = cos(progress·2π)·orbitDist`, `z = -sin(progress·2π)·orbitDist`
(counter-clockwise seen from `+y`). -/
noncomputable def earthPosition (progress orbitDist : ℝ) : ℝ × ℝ :=
  (Real.cos (progress * π * 2) * orbitDist, -Real.sin (progress * π * 2) * orbitDist)

/-- `angleToSun = atan2(-earthZ, -earthX)` (UniverseView line 71). -/
noncomputable def angleToSun (earthX earthZ : ℝ) : ℝ := atan2 (-earthZ) (-earthX)

/-- World moon angle used by the 3D scene: `angleToSun + moonProgress·2π`
(UniverseView line 72). -/
noncomputable def universeMoonAngle (s : CelestialState) (orbitDist : ℝ) : ℝ :=
  let e := earthPosition s.earthOrbitProgress orbitDist
  angleToSun e.1 e.2 + s.moonOrbitProgress * π * 2

/-- World position of the moon mesh (UniverseView line 150): the earth
group position plus `(cos(moonAngle)·moonDist, -sin(moonAngle)·moonDist)`. -/
noncomputable def moonWorldPosition (earthProgress moonProgress orbitDist moonDist : ℝ) :
    ℝ × ℝ :=
  let e := earthPosition earthProgress orbitDist
  let moonAngle := angleToSun e.1 e.2 + moonProgress * π * 2
  (e.1 + Real.cos moonAngle * moonDist, e.2 + -Real.sin moonAngle * moonDist)

/-- Earth-drag inversion (UniverseView lines 217–221):
`angle = atan2(point.z, point.x)`, `progress = angle / 2π`, plus 1 if
negative. -/
noncomputable def invertEarthDrag (point : ℝ × ℝ) : ℝ :=
  let angle := atan2 point.2 point.1
  let progress := angle / (π * 2)
  if progress < 0 then progress + 1 else progress

/-- The Earth position recomputed inside the moon-drag branch of
`handleDragUpdate` (UniverseView lines 223–224).  Note the `z` component
uses `+sin`, not the `-sin` of the actual placement. -/
noncomputable def moonDragEarthPos (earthProgress orbitDist : ℝ) : ℝ × ℝ :=
  (Real.cos (earthProgress * π * 2) * orbitDist,
   Real.sin (earthProgress * π * 2) * orbitDist)

/-- Moon-drag inversion (UniverseView lines 222–234): subtract the
recomputed Earth position, take `atan2` of the relative vector, subtract
`angleToSun`, divide by `2π` and wrap into `[0,1)`. -/
noncomputable def invertMoonDrag (point : ℝ × ℝ) (earthProgress orbitDist : ℝ) : ℝ :=
  let e := moonDragEarthPos earthProgress orbitDist
  let relX := point.1 - e.1
  let relZ := point.2 - e.2
  let relAngle := atan2 relZ relX
  let aSun := atan2 (-e.2) (-e.1)
  wrap01 ((relAngle - aSun) / (π * 2))

/-- A drag targets either the Earth or the Moon. -/
inductive DragTarget
  | earth
  | moon

/-- A partial state update, as passed to
`setCelestialState(prev => ({...prev, ...newState}))` in src/App.tsx
line 185: each field is either absent or replaced. -/
structure StatePatch where
  timeP : Option ℝ
  dateP : Option ℤ
  earthP : Option ℝ
  moonP : Option ℝ

/-- The empty patch (the early-return paths of `handleDragUpdate`). -/
def emptyPatch : StatePatch := ⟨none, none, none, none⟩

/-- The spread-merge `{...prev, ...newState}`. -/
def applyPatch (s : CelestialState) (p : StatePatch) : CelestialState :=
  { time := p.timeP.getD s.time,
    date := p.dateP.getD s.date,
    earthOrbitProgress := p.earthP.getD s.earthOrbitProgress,
    moonOrbitProgress := p.moonP.getD s.moonOrbitProgress }

/-- `handleDragUpdate` (UniverseView lines 214–236) as a patch producer: no
patch when no drag is active or in mini-map mode; an Earth drag patches only
`earthOrbitProgress`; a Moon drag patches only `moonOrbitProgress`. -/
noncomputable def handleDragUpdate (dragTarget : Option DragTarget) (miniMap : Bool)
    (s : CelestialState) (point : ℝ × ℝ) (orbitDist : ℝ) : StatePatch :=
  match dragTarget, miniMap with
  | none, _ => emptyPatch
  | some _, true => emptyPatch
  | some DragTarget.earth, false =>
      ⟨none, none, some (invertEarthDrag point), none⟩
  | some DragTarget.moon, false =>
      ⟨none, none, none, some (invertMoonDrag point s.earthOrbitProgress orbitDist)⟩

/-- The normalization applied by both moon-phase classifiers:
`((p % 1) + 1) % 1`. -/
def normalizeProgress (p : ℚ) : ℚ := jsMod (jsMod p 1 + 1) 1

/-- The classifier of src/App.tsx lines 133–144 (`moonPhaseName`), with its
exact strings; the final line is the unnamed fallback. -/
def moonPhaseName (x : ℚ) : String :=
  let p := normalizeProgress x
  if p < 0.03 ∨ p > 0.97 then "삭 (New Moon)"
  else if 0.03 ≤ p ∧ p < 0.22 then "그믐달 (Waning Crescent)"
  else if 0.22 ≤ p ∧ p < 0.28 then "하현달 (Last Quarter)"
  else if 0.28 ≤ p ∧ p < 0.47 then "하현망 (Waning Gibbous)"
  else if 0.47 ≤ p ∧ p < 0.53 then "보름달 (Full Moon)"
  else if 0.53 ≤ p ∧ p < 0.72 then "상현망 (Waxing Gibbous)"
  else if 0.72 ≤ p ∧ p < 0.78 then "상현달 (First Quarter)"
  else if 0.78 ≤ p ∧ p < 0.97 then "초승달 (Waxing Crescent)"
  else "달의 위상이 변화 중입니다"

/-- The eight named buckets of `moonPhaseName`, in table order. -/
def appPhaseList : List String :=
  ["삭 (New Moon)", "그믐달 (Waning Crescent)", "하현달 (Last Quarter)",
   "하현망 (Waning Gibbous)", "보름달 (Full Moon)", "상현망 (Waxing Gibbous)",
   "상현달 (First Quarter)", "초승달 (Waxing Crescent)"]

/-- The classifier of src/components/HomeView.tsx lines 343–354
(`moonPhaseText`): identical ranges, swapped waxing/waning labels, and the
empty string as fallback. -/
def moonPhaseText (x : ℚ) : String :=
  let prog := normalizeProgress x
  if prog < 0.03 ∨ prog > 0.97 then "삭 (New Moon)"
  else if 0.03 ≤ prog ∧ prog < 0.22 then "초승달 (Waxing Crescent)"
  else if 0.22 ≤ prog ∧ prog < 0.28 then "상현달 (First Quarter)"
  else if 0.28 ≤ prog ∧ prog < 0.47 then "상현망 (Waxing Gibbous)"
  else if 0.47 ≤ prog ∧ prog < 0.53 then "보름달 (Full Moon)"
  else if 0.53 ≤ prog ∧ prog < 0.72 then "하현망 (Waning Gibbous)"
  else if 0.72 ≤ prog ∧ prog < 0.78 then "하현달 (Last Quarter)"
  else if 0.78 ≤ prog ∧ prog < 0.97 then "그믐달 (Waning Crescent)"
  else ""

/-- The eight named buckets of `moonPhaseText`, in table order. -/
def homePhaseList : List String :=
  ["삭 (New Moon)", "초승달 (Waxing Crescent)", "상현달 (First Quarter)",
   "상현망 (Waxing Gibbous)", "보름달 (Full Moon)", "하현망 (Waning Gibbous)",
   "하현달 (Last Quarter)", "그믐달 (Waning Crescent)"]

/-- Earth angle of the 2D mini-map overlay (src/App.tsx lines 156–164), in
degrees: `atan2(earthZ, earthX)·180/π` on the unit-radius positions. -/
noncomputable def miniMapEarthAngle (s : CelestialState) : ℝ :=
  let earthX := Real.cos (s.earthOrbitProgress * π * 2)
  let earthZ := -Real.sin (s.earthOrbitProgress * π * 2)
  atan2 earthZ earthX * 180 / π

/-- Moon angle of the 2D mini-map overlay (src/App.tsx lines 166–170), in
degrees: `-(angleToSun + moonProgress·2π)·180/π`. -/
noncomputable def miniMapMoonAngleDeg (s : CelestialState) : ℝ :=
  let earthX := Real.cos (s.earthOrbitProgress * π * 2)
  let earthZ := -Real.sin (s.earthOrbitProgress * π * 2)
  let aSun := atan2 (-earthZ) (-earthX)
  let moonAngle3D := aSun + s.moonOrbitProgress * π * 2
  let moonAngleDeg := (-moonAngle3D) * 180 / π
  moonAngleDeg

/-- Earth angle of the 3D scene, read off from its world position. -/
noncomputable def universeEarthAngle (s : CelestialState) (orbitDist : ℝ) : ℝ :=
  let e := earthPosition s.earthOrbitProgress orbitDist
  atan2 e.2 e.1

/-- The angle at which the view marker is placed on Earth
(UniverseView lines 74–76): `angleToSun + (time/24)·2π`. -/
noncomputable def markerAngle (s : CelestialState) (orbitDist : ℝ) : ℝ :=
  let e := earthPosition s.earthOrbitProgress orbitDist
  angleToSun e.1 e.2 + s.time / 24 * π * 2

/-- Local position of the view marker (UniverseView lines 75–76):
`(cos(angleToSun + timeAngle)·r, sin(angleToSun + timeAngle)·r)` — note the
`+sin`, backwards relative to the `-sin` convention of the Earth and Moon
placements. -/
noncomputable def userLocalPos (s : CelestialState) (orbitDist r : ℝ) : ℝ × ℝ :=
  (Real.cos (markerAngle s orbitDist) * r, Real.sin (markerAngle s orbitDist) * r)

/-- The state invariant of the spec: `time ∈ [0,24)` and both orbit phases
in `[0,1)`. -/
def Inv (s : CelestialState) : Prop :=
  0 ≤ s.time ∧ s.time < 24 ∧
  0 ≤ s.earthOrbitProgress ∧ s.earthOrbitProgress < 1 ∧
  0 ≤ s.moonOrbitProgress ∧ s.moonOrbitProgress < 1

section ModLemmas

variable {α : Type} [LinearOrderedField α] [FloorRing α]

lemma jsMod_nonneg_eq_fract (x : α) (hx : 0 ≤ x) : jsMod x 1 = Int.fract x := by
  unfold jsMod jsTrunc Int.fract
  rw [div_one, if_pos hx, one_mul]

lemma jsMod_neg_eq (x : α) (hx : x < 0) : jsMod x 1 = x + (⌊-x⌋ : α) := by
  simp [jsMod, jsTrunc, not_le.mpr hx]

lemma ifWrap_jsMod_one_eq_fract (x : α) :
    (if jsMod x 1 < 0 then jsMod x 1 + 1 else jsMod x 1) = Int.fract x := by
  rcases le_or_lt 0 x with hx | hx
  · rw [jsMod_nonneg_eq_fract x hx, if_neg (not_lt.mpr (Int.fract_nonneg x))]
  · rw [jsMod_neg_eq x hx]
    have h1 : (⌊-x⌋ : α) ≤ -x := Int.floor_le _
    have h2 : -x < ⌊-x⌋ + 1 := Int.lt_floor_add_one _
    by_cases h : x + (⌊-x⌋ : α) < 0
    · rw [if_pos h]
      have hf : ⌊x⌋ = -⌊-x⌋ - 1 := by
        rw [Int.floor_eq_iff]
        constructor
        · push_cast
          linarith
        · push_cast
          linarith
      rw [Int.fract, hf]
      push_cast
      ring
    · rw [if_neg h]
      have h0 : x + (⌊-x⌋ : α) = 0 := le_antisymm (by linarith) (not_lt.mp h)
      have hx' : x = ((-⌊-x⌋ : ℤ) : α) := by push_cast; linarith
      have hf0 : Int.fract x = 0 := by
        rw [hx']
        exact Int.fract_intCast _
      rw [hf0]
      exact h0

lemma jsMod_nonneg_bounds (x b : α) (hx : 0 ≤ x) (hb : 0 < b) :
    0 ≤ jsMod x b ∧ jsMod x b < b := by
  have hxb : 0 ≤ x / b := div_nonneg hx hb.le
  have hrepr : jsMod x b = b * Int.fract (x / b) := by
    rw [jsMod, jsTrunc, if_pos hxb, Int.fract]
    field_simp
  constructor
  · rw [hrepr]
    exact mul_nonneg hb.le (Int.fract_nonneg _)
  · rw [hrepr]
    calc b * Int.fract (x / b) < b * 1 :=
      (mul_lt_mul_left hb).mpr (Int.fract_lt_one _)
    _ = b := mul_one b

lemma jsMod_eq_of_lt (x b : α) (hb : 0 < b) (h0 : 0 ≤ x) (h : x < b) :
    jsMod x b = x := by
  have hfloor : ⌊x / b⌋ = 0 :=
    Int.floor_eq_zero_iff.mpr ⟨div_nonneg h0 hb.le, (div_lt_one hb).mpr h⟩
  simp [jsMod, jsTrunc, if_pos (div_nonneg h0 hb.le), hfloor]

lemma jsMod_eq_of_ge (x b : α) (hb : 0 < b) (h : b ≤ x) (h2 : x < 2 * b) :
    jsMod x b = x - b := by
  have h0 : 0 ≤ x / b := div_nonneg (hb.le.trans h) hb.le
  have hfloor : ⌊x / b⌋ = 1 := by
    rw [Int.floor_eq_iff]
    constructor
    · push_cast
      exact (one_le_div hb).mpr h
    · push_cast
      rw [div_lt_iff hb]
      linarith
  simp [jsMod, jsTrunc, if_pos h0, hfloor]

lemma fract_add_fract (a b : α) : Int.fract (Int.fract a + b) = Int.fract (a + b) := by
  have h : Int.fract a + b = a + b - (⌊a⌋ : α) := by
    rw [Int.fract]
    ring
  rw [h, Int.fract_sub_int]

lemma if_neg_add_one_eq_fract (x : α) (h1 : -1 < x) (h2 : x < 1) :
    (if x < 0 then x + 1 else x) = Int.fract x := by
  by_cases h : x < 0
  · rw [if_pos h]
    have hf : ⌊x⌋ = -1 := by
      rw [Int.floor_eq_iff]
      push_cast
      constructor <;> linarith
    rw [Int.fract, hf]
    push_cast
    ring
  · rw [if_neg h, Int.fract_eq_self.mpr ⟨not_lt.mp h, h2⟩]

end ModLemmas

section Atan2Lemmas

lemma atan2_mul_right (y x r : ℝ) (hr : 0 < r) : atan2 (y * r) (x * r) = atan2 y x := by
  unfold atan2
  have h : (⟨x * r, y * r⟩ : ℂ) = (r : ℂ) * ⟨x, y⟩ := by
    apply Complex.ext <;> simp [Complex.mul_re, Complex.mul_im] <;> ring
  rw [h, Complex.arg_real_mul _ hr]

lemma atan2_mem_Ioc (y x : ℝ) : atan2 y x ∈ Set.Ioc (-π) π := Complex.arg_mem_Ioc _

lemma fract_atan2_sincos_sub (θ c : ℝ) :
    Int.fract ((atan2 (Real.sin θ) (Real.cos θ) - c) / (π * 2)) =
      Int.fract ((θ - c) / (π * 2)) := by
  have hmk : (⟨Real.cos θ, Real.sin θ⟩ : ℂ) =
      (Real.cos θ : ℂ) + (Real.sin θ : ℂ) * Complex.I := Complex.mk_eq_add_mul_I _ _
  have hsub := Complex.arg_cos_add_sin_mul_I_sub θ
  set k := ⌊(π - θ) / (2 * π)⌋ with hk
  have harg : atan2 (Real.sin θ) (Real.cos θ) = θ + 2 * π * (k : ℝ) := by
    unfold atan2
    rw [hmk, Complex.ofReal_cos, Complex.ofReal_sin]
    linarith
  rw [harg]
  have hdiv : (θ + 2 * π * (k : ℝ) - c) / (π * 2) = (θ - c) / (π * 2) + (k : ℝ) := by
    have hπ : π ≠ 0 := Real.pi_ne_zero
    field_simp
    ring
  rw [hdiv, Int.fract_add_int]

lemma fract_atan2_sincos (θ : ℝ) :
    Int.fract (atan2 (Real.sin θ) (Real.cos θ) / (π * 2)) =
      Int.fract (θ / (π * 2)) := by
  have h := fract_atan2_sincos_sub θ 0
  simpa using h

lemma invertEarthDrag_eq_fract (point : ℝ × ℝ) :
    invertEarthDrag point = Int.fract (atan2 point.2 point.1 / (π * 2)) := by
  unfold invertEarthDrag
  have hπ : (0 : ℝ) < π := Real.pi_pos
  have hmem := atan2_mem_Ioc point.2 point.1
  have h1 : -1 < atan2 point.2 point.1 / (π * 2) := by
    rw [lt_div_iff (by positivity)]
    nlinarith [hmem.1]
  have h2 : atan2 point.2 point.1 / (π * 2) < 1 := by
    rw [div_lt_one (by positivity)]
    nlinarith [hmem.2]
  exact if_neg_add_one_eq_fract _ h1 h2

lemma atan2_zero_pos (x : ℝ) (hx : 0 < x) : atan2 0 x = 0 := by
  unfold atan2
  have h : (⟨x, 0⟩ : ℂ) = (x : ℂ) := by apply Complex.ext <;> simp
  rw [h]
  exact Complex.arg_ofReal_of_nonneg hx.le

lemma atan2_zero_neg (x : ℝ) (hx : x < 0) : atan2 0 x = π := by
  unfold atan2
  have h : (⟨x, 0⟩ : ℂ) = (x : ℂ) := by apply Complex.ext <;> simp
  rw [h]
  exact Complex.arg_ofReal_of_neg hx

lemma atan2_neg_zero (y : ℝ) (hy : 0 < y) : atan2 (-y) 0 = -(π / 2) := by
  unfold atan2
  have h : (⟨0, -y⟩ : ℂ) = (y : ℂ) * -Complex.I := by
    apply Complex.ext <;> simp
  rw [h, Complex.arg_real_mul _ hy, Complex.arg_neg_I]

lemma fract_neg_quarter : Int.fract (-(1 / 4 : ℝ)) = 3 / 4 := by
  have hf : ⌊(-(1 / 4) : ℝ)⌋ = -1 := by
    rw [Int.floor_eq_iff] <;> norm_num
  rw [Int.fract, hf]
  norm_num

end Atan2Lemmas

section MoonRoundTrip

lemma moonRoundTrip_half (q D d : ℝ) (hD : 0 < D) (hd : 0 < d) :
    invertMoonDrag (moonWorldPosition (1 / 2) q D d) (1 / 2) D = Int.fract (-q) := by
  have hcos : Real.cos ((1 / 2 : ℝ) * π * 2) = -1 := by
    rw [show (1 / 2 : ℝ) * π * 2 = π by ring]
    exact Real.cos_pi
  have hsin : Real.sin ((1 / 2 : ℝ) * π * 2) = 0 := by
    rw [show (1 / 2 : ℝ) * π * 2 = π by ring]
    exact Real.sin_pi
  simp only [invertMoonDrag, moonWorldPosition, moonDragEarthPos, earthPosition,
    angleToSun, wrap01, hcos, hsin]
  norm_num
  rw [atan2_zero_pos D hD]
  norm_num
  rw [show -(Real.sin (q * π * 2) * d) = Real.sin (-(q * π * 2)) * d by
      rw [Real.sin_neg]; ring,
    show Real.cos (q * π * 2) * d = Real.cos (-(q * π * 2)) * d by rw [Real.cos_neg],
    atan2_mul_right _ _ d hd]
  have h := fract_atan2_sincos_sub (-(q * π * 2)) 0
  simp only [sub_zero] at h
  rw [h]
  congr 1
  have hπ : π ≠ 0 := Real.pi_ne_zero
  field_simp
  ring

lemma moonRoundTrip_zero (q D d : ℝ) (hD : 0 < D) (hd : 0 < d) :
    invertMoonDrag (moonWorldPosition 0 q D d) 0 D = Int.fract (-q) := by
  have hcos : Real.cos ((0 : ℝ) * π * 2) = 1 := by norm_num
  have hsin : Real.sin ((0 : ℝ) * π * 2) = 0 := by norm_num
  simp only [invertMoonDrag, moonWorldPosition, moonDragEarthPos, earthPosition,
    angleToSun, wrap01, hcos, hsin]
  norm_num
  rw [atan2_zero_neg (-D) (by linarith)]
  rw [show -(Real.sin (π + q * π * 2) * d) = Real.sin (-(π + q * π * 2)) * d by
      rw [Real.sin_neg]; ring,
    show Real.cos (π + q * π * 2) * d = Real.cos (-(π + q * π * 2)) * d by
      rw [Real.cos_neg],
    atan2_mul_right _ _ d hd,
    fract_atan2_sincos_sub (-(π + q * π * 2)) π]
  have hπ : π ≠ 0 := Real.pi_ne_zero
  have hq : (-(π + q * π * 2) - π) / (π * 2) = -q - ((1 : ℤ) : ℝ) := by
    push_cast
    field_simp
    ring
  rw [hq, Int.fract_sub_int]

end MoonRoundTrip

/-- C2 (counterexample): the Earth-drag inversion applied to Earth's rendered
position at progress 1/4 (radius 350) returns 3/4, not 1/4 — the claimed
round-trip identity `invertEarthDrag (earthPosition p R) = p` is false. -/
theorem earthDrag_roundTrip_not_identity :
    invertEarthDrag (earthPosition (1 / 4) 350) = 3 / 4 ∧
    invertEarthDrag (earthPosition (1 / 4) 350) ≠ 1 / 4 := by
  have hval : invertEarthDrag (earthPosition (1 / 4) 350) = 3 / 4 := by
    have hcos : Real.cos ((1 / 4 : ℝ) * π * 2) = 0 := by
      rw [show (1 / 4 : ℝ) * π * 2 = π / 2 by ring]
      exact Real.cos_pi_div_two
    have hsin : Real.sin ((1 / 4 : ℝ) * π * 2) = 1 := by
      rw [show (1 / 4 : ℝ) * π * 2 = π / 2 by ring]
      exact Real.sin_pi_div_two
    rw [invertEarthDrag_eq_fract]
    simp only [earthPosition, hcos, hsin]
    norm_num
    rw [show (-350 : ℝ) = -(350 : ℝ) by norm_num, atan2_neg_zero 350 (by norm_num)]
    rw [show -(π / 2) / (π * 2) = -(1 / 4 : ℝ) by
      have hπ : π ≠ 0 := Real.pi_ne_zero
      field_simp
      ring]
    exact fract_neg_quarter
  exact ⟨hval, by rw [hval]; norm_num⟩

/-- C2 (amended): for `p ∈ [0,1)` and `R > 0` the Earth-drag inversion of
Earth's rendered position returns the reflected phase `(1-p) mod 1` (0 at
`p = 0`, `1-p` otherwise), not `p`: the placement uses `z = -sin` while the
inversion reads the angle with `atan2(z, x)`. -/
theorem earthDrag_roundTrip_reflected (p R : ℝ) (hp0 : 0 ≤ p) (hp1 : p < 1)
    (hR : 0 < R) :
    invertEarthDrag (earthPosition p R) = if p = 0 then 0 else 1 - p := by
  have hstep : invertEarthDrag (earthPosition p R) = Int.fract (-p) := by
    rw [invertEarthDrag_eq_fract]
    have h1 : (earthPosition p R).1 = Real.cos (-(p * π * 2)) * R := by
      simp [earthPosition, Real.cos_neg]
    have h2 : (earthPosition p R).2 = Real.sin (-(p * π * 2)) * R := by
      simp [earthPosition, Real.sin_neg]
    rw [h1, h2, atan2_mul_right _ _ _ hR, fract_atan2_sincos]
    congr 1
    have hπ : π ≠ 0 := Real.pi_ne_zero
    field_simp
    ring
  rw [hstep]
  by_cases hp : p = 0
  · rw [if_pos hp, hp]
    simp
  · rw [if_neg hp]
    have hp0' : 0 < p := lt_of_le_of_ne hp0 (Ne.symm hp)
    have hf : ⌊-p⌋ = -1 := by
      rw [Int.floor_eq_iff]
      push_cast
      constructor <;> linarith
    rw [Int.fract, hf]
    push_cast
    ring

/-- C2 (witness): the amended statement instantiated at `p = 1/2`, `R = 350`. -/
theorem earthDrag_roundTrip_reflected_witness :
    invertEarthDrag (earthPosition (1 / 2) 350) =
      if (1 / 2 : ℝ) = 0 then 0 else 1 - 1 / 2 :=
  earthDrag_roundTrip_reflected (1 / 2) 350 (by norm_num) (by norm_num) (by norm_num)

/-- C1 (counterexample): with Earth fixed at progress 1/2 (orbit radius 350,
moon radius 110) and moon progress 1/4, inverting the rendered Moon position
returns 3/4, not 1/4 — the claimed round-trip identity is false. -/
theorem moonDrag_roundTrip_not_identity :
    invertMoonDrag (moonWorldPosition (1 / 2) (1 / 4) 350 110) (1 / 2) 350 = 3 / 4 ∧
    invertMoonDrag (moonWorldPosition (1 / 2) (1 / 4) 350 110) (1 / 2) 350 ≠ 1 / 4 := by
  have hval : invertMoonDrag (moonWorldPosition (1 / 2) (1 / 4) 350 110) (1 / 2) 350
      = 3 / 4 := by
    rw [moonRoundTrip_half (1 / 4) 350 110 (by norm_num) (by norm_num)]
    exact fract_neg_quarter
  exact ⟨hval, by rw [hval]; norm_num⟩

/-- C1 (amended): the moon-drag inversion recomputes the z-mirrored Earth
position `(ex, -ez)` rather than the rendered `(ex, ez)` (so the two agree
only when `sin(2π·earthProgress) = 0`), and at the mirror-fixed Earth
progresses 0 and 1/2 — where the recomputed Earth does coincide with the
rendered one — composing the Moon placement with the inversion returns the
reflected phase `fract(-q)`, not `q`. -/
theorem moonDrag_roundTrip_reflected (p q D d : ℝ) (hp : p = 0 ∨ p = 1 / 2)
    (hD : 0 < D) (hd : 0 < d) :
    (∀ pe De : ℝ, moonDragEarthPos pe De =
        ((earthPosition pe De).1, -(earthPosition pe De).2)) ∧
    invertMoonDrag (moonWorldPosition p q D d) p D = Int.fract (-q) := by
  constructor
  · intro pe De
    simp [moonDragEarthPos, earthPosition]
  · rcases hp with hp | hp <;> subst hp
    · exact moonRoundTrip_zero q D d hD hd
    · exact moonRoundTrip_half q D d hD hd

/-- C1 (witness): the amended statement instantiated at Earth progress 0,
moon progress 1/2, radii 400 and 100. -/
theorem moonDrag_roundTrip_reflected_witness :
    (∀ pe De : ℝ, moonDragEarthPos pe De =
        ((earthPosition pe De).1, -(earthPosition pe De).2)) ∧
    invertMoonDrag (moonWorldPosition 0 (1 / 2) 400 100) 0 400 =
      Int.fract (-(1 / 2 : ℝ)) :=
  moonDrag_roundTrip_reflected 0 (1 / 2) 400 100 (Or.inl rfl) (by norm_num)
    (by norm_num)

section TickLemmas

lemma tick_time (s : CelestialState) : (tick s).time = jsMod (s.time + 0.02) 24 := rfl

lemma tick_date (s : CelestialState) :
    (tick s).date = if s.time + 0.02 ≥ 24 then s.date + 1 else s.date := rfl

lemma tick_earth (s : CelestialState) :
    (tick s).earthOrbitProgress = jsMod (s.earthOrbitProgress + 0.02 / (24 * 365)) 1 := rfl

lemma tick_moon (s : CelestialState) :
    (tick s).moonOrbitProgress = jsMod (s.moonOrbitProgress + 0.02 / (24 * 28)) 1 := rfl

lemma tick_iterate_progress (n : ℕ) :
    (tick^[n] epoch).earthOrbitProgress = Int.fract ((n : ℝ) * (0.02 / (24 * 365))) ∧
    (tick^[n] epoch).moonOrbitProgress = Int.fract ((n : ℝ) * (0.02 / (24 * 28))) := by
  induction n with
  | zero => simp [epoch]
  | succ n ih =>
      obtain ⟨ihe, ihm⟩ := ih
      rw [Function.iterate_succ_apply']
      constructor
      · rw [tick_earth, ihe,
          jsMod_nonneg_eq_fract _ (add_nonneg (Int.fract_nonneg _) (by norm_num)),
          fract_add_fract]
        congr 1
        push_cast
        ring
      · rw [tick_moon, ihm,
          jsMod_nonneg_eq_fract _ (add_nonneg (Int.fract_nonneg _) (by norm_num)),
          fract_add_fract]
        congr 1
        push_cast
        ring

lemma resyncEarth_eq_fract (dd : ℤ) :
    resyncEarthProgress dd = Int.fract ((dd : ℝ) / 365) := by
  unfold resyncEarthProgress
  exact ifWrap_jsMod_one_eq_fract _

lemma resyncMoon_eq_fract (dd : ℤ) :
    resyncMoonProgress dd = Int.fract ((dd : ℝ) / 28) := by
  unfold resyncMoonProgress
  exact ifWrap_jsMod_one_eq_fract _

end TickLemmas

/-- C3: date-driven resynchronization and incremental advance agree exactly
on integer-day boundaries (in the real-number model of JavaScript floats):
for every natural day offset `dd`, resyncing to `dd` days after the epoch
gives the same Earth and Moon phases as running `1200·dd` clock ticks
(`dd` whole days at 0.02 h per tick) from the epoch; for every integer day
offset, including negative ones, the resynced phases lie in `[0,1)`; and
resyncing to 182 days yields exactly `182/365 ≈ 0.4986`. -/
theorem dateResync_agrees_with_advance :
    (∀ dd : ℕ,
      (applyDateChange epoch (dd : ℤ)).earthOrbitProgress =
        (tick^[1200 * dd] epoch).earthOrbitProgress ∧
      (applyDateChange epoch (dd : ℤ)).moonOrbitProgress =
        (tick^[1200 * dd] epoch).moonOrbitProgress) ∧
    (∀ dd : ℤ,
      0 ≤ (applyDateChange epoch dd).earthOrbitProgress ∧
      (applyDateChange epoch dd).earthOrbitProgress < 1 ∧
      0 ≤ (applyDateChange epoch dd).moonOrbitProgress ∧
      (applyDateChange epoch dd).moonOrbitProgress < 1) ∧
    (applyDateChange epoch 182).earthOrbitProgress = 182 / 365 := by
  have hre : ∀ dd : ℤ, (applyDateChange epoch dd).earthOrbitProgress =
      Int.fract ((dd : ℝ) / 365) := fun dd => resyncEarth_eq_fract dd
  have hrm : ∀ dd : ℤ, (applyDateChange epoch dd).moonOrbitProgress =
      Int.fract ((dd : ℝ) / 28) := fun dd => resyncMoon_eq_fract dd
  refine ⟨fun dd => ⟨?_, ?_⟩, fun dd => ?_, ?_⟩
  · rw [hre, (tick_iterate_progress (1200 * dd)).1]
    congr 1
    push_cast
    ring_nf
  · rw [hrm, (tick_iterate_progress (1200 * dd)).2]
    congr 1
    push_cast
    ring_nf
  · rw [hre, hrm]
    exact ⟨Int.fract_nonneg _, Int.fract_lt_one _, Int.fract_nonneg _, Int.fract_lt_one _⟩
  · rw [hre]
    rw [Int.fract_eq_self.mpr (by constructor <;> norm_num)]
    norm_num

/-- C6: a clock tick is total and advances the state by the fixed
granularity: on any state satisfying the invariant, time advances by 0.02
wrapping modulo 24, the date advances by exactly one day iff the un-wrapped
time reaches 24, and each orbit phase advances by `0.02/(24·period)`
wrapping modulo 1. -/
theorem tick_total_spec (s : CelestialState) (h : Inv s) :
    (tick s).time =
      (if s.time + 0.02 < 24 then s.time + 0.02 else s.time + 0.02 - 24) ∧
    (tick s).date = (if s.time + 0.02 ≥ 24 then s.date + 1 else s.date) ∧
    (tick s).earthOrbitProgress =
      (if s.earthOrbitProgress + 0.02 / (24 * 365) < 1
       then s.earthOrbitProgress + 0.02 / (24 * 365)
       else s.earthOrbitProgress + 0.02 / (24 * 365) - 1) ∧
    (tick s).moonOrbitProgress =
      (if s.moonOrbitProgress + 0.02 / (24 * 28) < 1
       then s.moonOrbitProgress + 0.02 / (24 * 28)
       else s.moonOrbitProgress + 0.02 / (24 * 28) - 1) := by
  obtain ⟨ht0, ht1, he0, he1, hm0, hm1⟩ := h
  refine ⟨?_, rfl, ?_, ?_⟩
  · rw [tick_time]
    by_cases hc : s.time + 0.02 < 24
    · rw [if_pos hc, jsMod_eq_of_lt _ _ (by norm_num) (by linarith) hc]
    · rw [if_neg hc, jsMod_eq_of_ge _ _ (by norm_num) (not_lt.mp hc) (by linarith)]
  · rw [tick_earth]
    by_cases hc : s.earthOrbitProgress + 0.02 / (24 * 365) < 1
    · rw [if_pos hc, jsMod_eq_of_lt _ _ (by norm_num) (by positivity) hc]
    · rw [if_neg hc, jsMod_eq_of_ge _ _ (by norm_num) (not_lt.mp hc) (by norm_num; linarith)]
  · rw [tick_moon]
    by_cases hc : s.moonOrbitProgress + 0.02 / (24 * 28) < 1
    · rw [if_pos hc, jsMod_eq_of_lt _ _ (by norm_num) (by positivity) hc]
    · rw [if_neg hc, jsMod_eq_of_ge _ _ (by norm_num) (not_lt.mp hc) (by norm_num; linarith)]

/-- C6 (witness): the tick specification instantiated at the epoch state. -/
theorem tick_total_spec_witness :
    Inv epoch ∧
    ((tick epoch).time =
      (if epoch.time + 0.02 < 24 then epoch.time + 0.02 else epoch.time + 0.02 - 24) ∧
    (tick epoch).date = (if epoch.time + 0.02 ≥ 24 then epoch.date + 1 else epoch.date) ∧
    (tick epoch).earthOrbitProgress =
      (if epoch.earthOrbitProgress + 0.02 / (24 * 365) < 1
       then epoch.earthOrbitProgress + 0.02 / (24 * 365)
       else epoch.earthOrbitProgress + 0.02 / (24 * 365) - 1) ∧
    (tick epoch).moonOrbitProgress =
      (if epoch.moonOrbitProgress + 0.02 / (24 * 28) < 1
       then epoch.moonOrbitProgress + 0.02 / (24 * 28)
       else epoch.moonOrbitProgress + 0.02 / (24 * 28) - 1)) :=
  ⟨by norm_num [Inv, epoch], tick_total_spec epoch (by norm_num [Inv, epoch])⟩

section EditLemmas

lemma parseTimeInput_sound (input : String) (hh mm : ℕ)
    (hp : parseTimeInput input = some (hh, mm)) : hh < 24 ∧ mm < 60 := by
  unfold parseTimeInput at hp
  rcases hl : splitColon (input.data.filter (fun c => c.isDigit || c == ':')) with
    _ | ⟨hs, _ | ⟨ms, rest⟩⟩ <;> rw [hl] at hp
  · simp at hp
  · simp at hp
  · simp only at hp
    split_ifs at hp with hcond
    cases hp
    exact hcond

lemma invertEarthDrag_bounds (point : ℝ × ℝ) :
    0 ≤ invertEarthDrag point ∧ invertEarthDrag point < 1 := by
  rw [invertEarthDrag_eq_fract]
  exact ⟨Int.fract_nonneg _, Int.fract_lt_one _⟩

end EditLemmas

/-- C7: every mutating operation — the clock tick, date-driven
resynchronization (valid or rejected), the time edit (valid or rejected),
and the merge of an Earth-drag or Moon-drag patch — preserves the invariant
`time ∈ [0,24)`, `earthOrbitProgress ∈ [0,1)`, `moonOrbitProgress ∈ [0,1)`;
each producer wraps by modulo (`jsMod`, forward-wrap, `Int.fract`), never
clamps. -/
theorem mutations_preserve_invariant (s : CelestialState) (h : Inv s) :
    Inv (tick s) ∧
    (∀ parsed : Option ℤ, Inv (handleDateChange s parsed)) ∧
    (∀ input : String, Inv (handleTimeChange s input)) ∧
    (∀ (dragTarget : Option DragTarget) (miniMap : Bool) (point : ℝ × ℝ)
      (orbitDist : ℝ),
      Inv (applyPatch s (handleDragUpdate dragTarget miniMap s point orbitDist))) := by
  obtain ⟨ht0, ht1, he0, he1, hm0, hm1⟩ := h
  refine ⟨?_, ?_, ?_, ?_⟩
  · refine ⟨?_, ?_, ?_, ?_, ?_, ?_⟩
    · rw [tick_time]
      exact (jsMod_nonneg_bounds _ _ (by linarith) (by norm_num)).1
    · rw [tick_time]
      exact (jsMod_nonneg_bounds _ _ (by linarith) (by norm_num)).2
    · rw [tick_earth]
      exact (jsMod_nonneg_bounds _ _ (by positivity) (by norm_num)).1
    · rw [tick_earth]
      exact (jsMod_nonneg_bounds _ _ (by positivity) (by norm_num)).2
    · rw [tick_moon]
      exact (jsMod_nonneg_bounds _ _ (by positivity) (by norm_num)).1
    · rw [tick_moon]
      exact (jsMod_nonneg_bounds _ _ (by positivity) (by norm_num)).2
  · intro parsed
    rcases parsed with _ | dd
    · exact ⟨ht0, ht1, he0, he1, hm0, hm1⟩
    · refine ⟨ht0, ht1, ?_, ?_, ?_, ?_⟩
      · rw [show (handleDateChange s (some dd)).earthOrbitProgress =
            resyncEarthProgress dd from rfl, resyncEarth_eq_fract]
        exact Int.fract_nonneg _
      · rw [show (handleDateChange s (some dd)).earthOrbitProgress =
            resyncEarthProgress dd from rfl, resyncEarth_eq_fract]
        exact Int.fract_lt_one _
      · rw [show (handleDateChange s (some dd)).moonOrbitProgress =
            resyncMoonProgress dd from rfl, resyncMoon_eq_fract]
        exact Int.fract_nonneg _
      · rw [show (handleDateChange s (some dd)).moonOrbitProgress =
            resyncMoonProgress dd from rfl, resyncMoon_eq_fract]
        exact Int.fract_lt_one _
  · intro input
    rcases hp : parseTimeInput input with _ | ⟨hh, mm⟩
    · have hsame : handleTimeChange s input = s := by
        unfold handleTimeChange
        rw [hp]
      rw [hsame]
      exact ⟨ht0, ht1, he0, he1, hm0, hm1⟩
    · obtain ⟨h24, h60⟩ := parseTimeInput_sound input hh mm hp
      have hval : handleTimeChange s input = { s with time := (hh : ℝ) + (mm : ℝ) / 60 } := by
        unfold handleTimeChange
        rw [hp]
      rw [hval]
      have hhle : (hh : ℝ) ≤ 23 := by
        have : hh ≤ 23 := Nat.lt_succ_iff.mp h24
        exact_mod_cast this
      have hmlt : (mm : ℝ) < 60 := by exact_mod_cast h60
      refine ⟨by positivity, ?_, he0, he1, hm0, hm1⟩
      have hm60 : (mm : ℝ) / 60 < 1 := (div_lt_one (by norm_num)).mpr hmlt
      show (hh : ℝ) + (mm : ℝ) / 60 < 24
      linarith
  · intro dragTarget miniMap point orbitDist
    rcases dragTarget with _ | target
    · exact ⟨ht0, ht1, he0, he1, hm0, hm1⟩
    · rcases target with _ | _
      · rcases miniMap with _ | _
        · obtain ⟨hb0, hb1⟩ := invertEarthDrag_bounds point
          exact ⟨ht0, ht1, hb0, hb1, hm0, hm1⟩
        · exact ⟨ht0, ht1, he0, he1, hm0, hm1⟩
      · rcases miniMap with _ | _
        · refine ⟨ht0, ht1, he0, he1, ?_, ?_⟩
          · exact Int.fract_nonneg _
          · exact Int.fract_lt_one _
        · exact ⟨ht0, ht1, he0, he1, hm0, hm1⟩

/-- C7 (witness): invariant preservation instantiated at the epoch state for
each kind of mutation. -/
theorem mutations_preserve_invariant_witness :
    Inv epoch ∧
    Inv (tick epoch) ∧
    Inv (handleDateChange epoch (some (-100))) ∧
    Inv (handleTimeChange epoch "23:59") ∧
    Inv (applyPatch epoch
      (handleDragUpdate (some DragTarget.moon) false epoch (5, -7) 350)) := by
  have hinv : Inv epoch := by norm_num [Inv, epoch]
  have h := mutations_preserve_invariant epoch hinv
  exact ⟨hinv, h.1, h.2.1 (some (-100)), h.2.2.1 "23:59",
    h.2.2.2 (some DragTarget.moon) false (5, -7) 350⟩

/-- C8: malformed date or time edits leave the whole state unchanged (no
partial update), and well-formed ones apply fully: a valid `HH:MM` edit sets
`time = hours + minutes/60` (with the parsed values necessarily in range)
and touches nothing else, and a valid date edit sets the date and both
recomputed phases and leaves `time` alone. -/
theorem edits_reject_malformed (s : CelestialState) :
    (∀ input : String, parseTimeInput input = none → handleTimeChange s input = s) ∧
    (∀ (input : String) (hh mm : ℕ), parseTimeInput input = some (hh, mm) →
      hh < 24 ∧ mm < 60 ∧
      handleTimeChange s input = { s with time := (hh : ℝ) + (mm : ℝ) / 60 }) ∧
    handleDateChange s none = s ∧
    (∀ dd : ℤ, handleDateChange s (some dd) =
      { s with date := dd,
               earthOrbitProgress := resyncEarthProgress dd,
               moonOrbitProgress := resyncMoonProgress dd }) := by
  refine ⟨?_, ?_, rfl, fun dd => rfl⟩
  · intro input hp
    unfold handleTimeChange
    rw [hp]
  · intro input hh mm hp
    obtain ⟨h24, h60⟩ := parseTimeInput_sound input hh mm hp
    refine ⟨h24, h60, ?_⟩
    unfold handleTimeChange
    rw [hp]

/-- C8 (witness): a malformed time edit (`"99:99"`), a well-formed one
(`"07:30"`), and a rejected date edit, applied at the epoch state. -/
theorem edits_reject_malformed_witness :
    handleTimeChange epoch "99:99" = epoch ∧
    handleTimeChange epoch "07:30" =
      { epoch with time := ((7 : ℕ) : ℝ) + ((30 : ℕ) : ℝ) / 60 } ∧
    handleDateChange epoch none = epoch :=
  ⟨(edits_reject_malformed epoch).1 "99:99" (by rfl),
   ((edits_reject_malformed epoch).2.1 "07:30" 7 30 (by rfl)).2.2,
   (edits_reject_malformed epoch).2.2.1⟩

/-- C10: a drag update patches only the dragged body's phase field: merging
an Earth-drag patch leaves `time`, `date` and `moonOrbitProgress` unchanged
and sets `earthOrbitProgress` to the inverted value; merging a Moon-drag
patch leaves `time`, `date` and `earthOrbitProgress` unchanged and sets
`moonOrbitProgress` to the inverted value. -/
theorem drag_updates_only_target_field (s : CelestialState) (point : ℝ × ℝ)
    (orbitDist : ℝ) :
    ((applyPatch s (handleDragUpdate (some DragTarget.earth) false s point
        orbitDist)).time = s.time ∧
      (applyPatch s (handleDragUpdate (some DragTarget.earth) false s point
        orbitDist)).date = s.date ∧
      (applyPatch s (handleDragUpdate (some DragTarget.earth) false s point
        orbitDist)).moonOrbitProgress = s.moonOrbitProgress ∧
      (applyPatch s (handleDragUpdate (some DragTarget.earth) false s point
        orbitDist)).earthOrbitProgress = invertEarthDrag point) ∧
    ((applyPatch s (handleDragUpdate (some DragTarget.moon) false s point
        orbitDist)).time = s.time ∧
      (applyPatch s (handleDragUpdate (some DragTarget.moon) false s point
        orbitDist)).date = s.date ∧
      (applyPatch s (handleDragUpdate (some DragTarget.moon) false s point
        orbitDist)).earthOrbitProgress = s.earthOrbitProgress ∧
      (applyPatch s (handleDragUpdate (some DragTarget.moon) false s point
        orbitDist)).moonOrbitProgress =
        invertMoonDrag point s.earthOrbitProgress orbitDist) :=
  ⟨⟨rfl, rfl, rfl, rfl⟩, ⟨rfl, rfl, rfl, rfl⟩⟩

/-- C5: for every state the 2D mini-map and the 3D projection agree exactly
(hence within any floating-point tolerance): the overlay Earth angle equals
the 3D Earth world angle (read off its position at any positive orbit
radius) converted to degrees, and the overlay Moon angle is exactly the
negation of the 3D world Moon angle `angleToSun + 2π·moonProgress` converted
to degrees — the single documented handedness correction. -/
theorem miniMap_agrees_with_universe (s : CelestialState) (orbitDist : ℝ)
    (hD : 0 < orbitDist) :
    miniMapEarthAngle s = universeEarthAngle s orbitDist * 180 / π ∧
    miniMapMoonAngleDeg s = -(universeMoonAngle s orbitDist) * 180 / π := by
  constructor
  · simp only [miniMapEarthAngle, universeEarthAngle, earthPosition]
    rw [atan2_mul_right _ _ _ hD]
  · simp only [miniMapMoonAngleDeg, universeMoonAngle, earthPosition, angleToSun]
    rw [show -(-Real.sin (s.earthOrbitProgress * π * 2) * orbitDist) =
          -(-Real.sin (s.earthOrbitProgress * π * 2)) * orbitDist by ring,
        show -(Real.cos (s.earthOrbitProgress * π * 2) * orbitDist) =
          -Real.cos (s.earthOrbitProgress * π * 2) * orbitDist by ring,
        atan2_mul_right _ _ _ hD]

/-- C5 (witness): the overlay agreement instantiated at the epoch state with
orbit radius 350. -/
theorem miniMap_agrees_with_universe_witness :
    miniMapEarthAngle epoch = universeEarthAngle epoch 350 * 180 / π ∧
    miniMapMoonAngleDeg epoch = -(universeMoonAngle epoch 350) * 180 / π :=
  miniMap_agrees_with_universe epoch 350 (by norm_num)

/-- C9 (counterexample): the view marker is not placed in the same
convention as the other bodies, and at `time = 0` it faces toward the Sun,
not away.  At Earth progress 0 and `time = 6` the marker local z is `-30`
while the bodies' convention `z = -sin(angle)·30` would give `+30`; at
Earth progress 0 and `time = 0`, Earth sits at `(350, 0)` with the Sun at
the origin, and the marker local offset is `(-30, 0)` — on the Sun-facing
side, where facing away would require `(+30, 0)`. -/
theorem viewMarker_convention_cex :
    (userLocalPos (⟨6, 0, 0, 0⟩ : CelestialState) 350 30).2 = -30 ∧
    -Real.sin (markerAngle (⟨6, 0, 0, 0⟩ : CelestialState) 350) * 30 = 30 ∧
    earthPosition 0 350 = (350, 0) ∧
    (userLocalPos (⟨0, 0, 0, 0⟩ : CelestialState) 350 30).1 = -30 := by
  have hcos0 : Real.cos ((0 : ℝ) * π * 2) = 1 := by norm_num
  have hsin0 : Real.sin ((0 : ℝ) * π * 2) = 0 := by norm_num
  have hsun : angleToSun (Real.cos ((0 : ℝ) * π * 2) * 350)
      (-Real.sin ((0 : ℝ) * π * 2) * 350) = π := by
    rw [hcos0, hsin0]
    unfold angleToSun
    norm_num
    exact atan2_zero_neg (-350) (by norm_num)
  have hmark6 : markerAngle (⟨6, 0, 0, 0⟩ : CelestialState) 350 = π + π / 2 := by
    simp only [markerAngle, earthPosition]
    rw [hsun]
    norm_num
    ring
  have hmark0 : markerAngle (⟨0, 0, 0, 0⟩ : CelestialState) 350 = π := by
    simp only [markerAngle, earthPosition]
    rw [hsun]
    norm_num
  have hsin32 : Real.sin (π + π / 2) = -1 := by
    rw [Real.sin_add]
    norm_num
  refine ⟨?_, ?_, ?_, ?_⟩
  · simp only [userLocalPos, hmark6, hsin32]
    norm_num
  · rw [hmark6, hsin32]
    norm_num
  · simp only [earthPosition, hcos0, hsin0]
    norm_num
  · simp only [userLocalPos, hmark0, Real.cos_pi]
    norm_num

/-- C9 (amended): the view marker is placed at the angle
`angleToSun + (time/24)·2π` but in the mirrored convention (`z = +sin`).
Consequently at `time = 0` the marker offset is `-(r/orbitDist)` times
Earth's position vector — it faces directly toward the Sun for every Earth
progress — and over one simulated day the marker angle advances by exactly
`2π` (one full revolution), independent of Earth's orbital motion. -/
theorem viewMarker_toward_sun_and_revolution (s : CelestialState)
    (orbitDist r : ℝ) (hD : 0 < orbitDist) :
    (s.time = 0 → userLocalPos s orbitDist r =
      (-((earthPosition s.earthOrbitProgress orbitDist).1 * (r / orbitDist)),
       -((earthPosition s.earthOrbitProgress orbitDist).2 * (r / orbitDist)))) ∧
    markerAngle { s with time := s.time + 24 } orbitDist =
      markerAngle s orbitDist + π * 2 := by
  constructor
  · intro ht
    set ex := (earthPosition s.earthOrbitProgress orbitDist).1 with hex
    set ez := (earthPosition s.earthOrbitProgress orbitDist).2 with hez
    have hsq : ex ^ 2 + ez ^ 2 = orbitDist ^ 2 := by
      rw [hex, hez]
      simp only [earthPosition]
      have := Real.sin_sq_add_cos_sq (s.earthOrbitProgress * π * 2)
      ring_nf
      nlinarith [this]
    have hnormSq : Complex.normSq ⟨-ex, -ez⟩ = orbitDist ^ 2 := by
      rw [Complex.normSq_mk]
      ring_nf
      linarith [hsq]
    have habs : Complex.abs ⟨-ex, -ez⟩ = orbitDist := by
      rw [Complex.abs_apply, hnormSq]
      exact Real.sqrt_sq hD.le
    have hne : (⟨-ex, -ez⟩ : ℂ) ≠ 0 := by
      intro h0
      rw [h0] at hnormSq
      simp at hnormSq
      nlinarith [hnormSq]
    have hcosa : Real.cos (angleToSun ex ez) = -ex / orbitDist := by
      unfold angleToSun atan2
      rw [Complex.cos_arg hne, habs]
    have hsina : Real.sin (angleToSun ex ez) = -ez / orbitDist := by
      unfold angleToSun atan2
      rw [Complex.sin_arg, habs]
    have hang : markerAngle s orbitDist = angleToSun ex ez := by
      simp only [markerAngle, ht]
      norm_num
    have hD' : orbitDist ≠ 0 := ne_of_gt hD
    simp only [userLocalPos, hang, hcosa, hsina]
    refine Prod.ext ?_ ?_ <;> field_simp <;> ring
  · simp only [markerAngle]
    ring

/-- C9 (witness): the amended statement instantiated at a `time = 0` state
with Earth progress 1/4, orbit radius 200 and marker radius 30. -/
theorem viewMarker_toward_sun_witness :
    userLocalPos (⟨0, 0, 1 / 4, 0⟩ : CelestialState) 200 30 =
      (-((earthPosition (1 / 4) 200).1 * (30 / 200)),
       -((earthPosition (1 / 4) 200).2 * (30 / 200))) ∧
    markerAngle (⟨0 + 24, 0, 1 / 4, 0⟩ : CelestialState) 200 =
      markerAngle (⟨0, 0, 1 / 4, 0⟩ : CelestialState) 200 + π * 2 := by
  have h := viewMarker_toward_sun_and_revolution
    (⟨0, 0, 1 / 4, 0⟩ : CelestialState) 200 30 (by norm_num)
  exact ⟨h.1 rfl, h.2⟩

section ClassifierLemmas

lemma normalizeProgress_bounds (x : ℚ) :
    0 ≤ normalizeProgress x ∧ normalizeProgress x < 1 := by
  have hinner : 0 ≤ jsMod x 1 + 1 := by
    rcases le_or_lt 0 x with hx | hx
    · rw [jsMod_nonneg_eq_fract x hx]
      have := Int.fract_nonneg (α := ℚ) x
      linarith
    · rw [jsMod_neg_eq x hx]
      have h2 : -x < ⌊-x⌋ + 1 := Int.lt_floor_add_one _
      linarith
  unfold normalizeProgress
  rw [jsMod_nonneg_eq_fract _ hinner]
  exact ⟨Int.fract_nonneg _, Int.fract_lt_one _⟩

end ClassifierLemmas

/-- C4 (counterexample): the classifiers are not total onto the 8 named
buckets, and the boundary 0.97 does not resolve to a named bucket: at
normalized progress exactly 0.97 the App classifier returns its unnamed
fallback string and the HomeView classifier returns the empty string,
neither of which is one of the 8 phase names. -/
theorem moonPhase_boundary_097_fallback :
    moonPhaseName 0.97 = "달의 위상이 변화 중입니다" ∧
    moonPhaseName 0.97 ∉ appPhaseList ∧
    moonPhaseText 0.97 = "" ∧
    moonPhaseText 0.97 ∉ homePhaseList := by
  have hn : moonPhaseName 0.97 = "달의 위상이 변화 중입니다" := by
    simp only [moonPhaseName, normalizeProgress, jsMod, jsTrunc]
    norm_num
  have ht : moonPhaseText 0.97 = "" := by
    simp only [moonPhaseText, normalizeProgress, jsMod, jsTrunc]
    norm_num
  refine ⟨hn, ?_, ht, ?_⟩
  · rw [hn]
    simp [appPhaseList]
  · rw [ht]
    simp [homePhaseList]

set_option maxHeartbeats 1600000 in
/-- C4 (amended): both moon-phase classifiers are total as functions, and on
every input whose normalized progress `((p % 1) + 1) % 1` differs from
exactly 0.97 they return one of their 8 named buckets; each of the seven
boundary values 0.03, 0.22, 0.28, 0.47, 0.53, 0.72, 0.78 resolves to the
bucket whose half-open interval starts there (0.97 alone falls through to
the unnamed fallback, as the counterexample shows). -/
theorem moonPhase_classifier_total_except_097 :
    (∀ x : ℚ, normalizeProgress x = 0.97 ∨ moonPhaseName x ∈ appPhaseList) ∧
    (∀ x : ℚ, normalizeProgress x = 0.97 ∨ moonPhaseText x ∈ homePhaseList) ∧
    moonPhaseName 0.03 = "그믐달 (Waning Crescent)" ∧
    moonPhaseName 0.22 = "하현달 (Last Quarter)" ∧
    moonPhaseName 0.28 = "하현망 (Waning Gibbous)" ∧
    moonPhaseName 0.47 = "보름달 (Full Moon)" ∧
    moonPhaseName 0.53 = "상현망 (Waxing Gibbous)" ∧
    moonPhaseName 0.72 = "상현달 (First Quarter)" ∧
    moonPhaseName 0.78 = "초승달 (Waxing Crescent)" ∧
    moonPhaseText 0.03 = "초승달 (Waxing Crescent)" ∧
    moonPhaseText 0.22 = "상현달 (First Quarter)" ∧
    moonPhaseText 0.28 = "상현망 (Waxing Gibbous)" ∧
    moonPhaseText 0.47 = "보름달 (Full Moon)" ∧
    moonPhaseText 0.53 = "하현망 (Waning Gibbous)" ∧
    moonPhaseText 0.72 = "하현달 (Last Quarter)" ∧
    moonPhaseText 0.78 = "그믐달 (Waning Crescent)" := by
  refine ⟨?_, ?_, ?_, ?_, ?_, ?_, ?_, ?_, ?_, ?_, ?_, ?_, ?_, ?_, ?_, ?_⟩
  · intro x
    by_cases hx : normalizeProgress x = 0.97
    · exact Or.inl hx
    · right
      obtain ⟨hp0, hp1⟩ := normalizeProgress_bounds x
      simp only [moonPhaseName]
      split_ifs with h1 h2 h3 h4 h5 h6 h7 h8
      · simp [appPhaseList]
      · simp [appPhaseList]
      · simp [appPhaseList]
      · simp [appPhaseList]
      · simp [appPhaseList]
      · simp [appPhaseList]
      · simp [appPhaseList]
      · simp [appPhaseList]
      · exfalso
        apply hx
        push_neg at h1 h2 h3 h4 h5 h6 h7 h8
        obtain ⟨ha, hb⟩ := h1
        have c2 := h2 ha
        have c3 := h3 c2
        have c4 := h4 c3
        have c5 := h5 c4
        have c6 := h6 c5
        have c7 := h7 c6
        have c8 := h8 c7
        linarith
  · intro x
    by_cases hx : normalizeProgress x = 0.97
    · exact Or.inl hx
    · right
      obtain ⟨hp0, hp1⟩ := normalizeProgress_bounds x
      simp only [moonPhaseText]
      split_ifs with h1 h2 h3 h4 h5 h6 h7 h8
      · simp [homePhaseList]
      · simp [homePhaseList]
      · simp [homePhaseList]
      · simp [homePhaseList]
      · simp [homePhaseList]
      · simp [homePhaseList]
      · simp [homePhaseList]
      · simp [homePhaseList]
      · exfalso
        apply hx
        push_neg at h1 h2 h3 h4 h5 h6 h7 h8
        obtain ⟨ha, hb⟩ := h1
        have c2 := h2 ha
        have c3 := h3 c2
        have c4 := h4 c3
        have c5 := h5 c4
        have c6 := h6 c5
        have c7 := h7 c6
        have c8 := h8 c7
        linarith
  · simp only [moonPhaseName, normalizeProgress, jsMod, jsTrunc]
    norm_num
  · simp only [moonPhaseName, normalizeProgress, jsMod, jsTrunc]
    norm_num
  · simp only [moonPhaseName, normalizeProgress, jsMod, jsTrunc]
    norm_num
  · simp only [moonPhaseName, normalizeProgress, jsMod, jsTrunc]
    norm_num
  · simp only [moonPhaseName, normalizeProgress, jsMod, jsTrunc]
    norm_num
  · simp only [moonPhaseName, normalizeProgress, jsMod, jsTrunc]
    norm_num
  · simp only [moonPhaseName, normalizeProgress, jsMod, jsTrunc]
    norm_num
  · simp only [moonPhaseText, normalizeProgress, jsMod, jsTrunc]
    norm_num
  · simp only [moonPhaseText, normalizeProgress, jsMod, jsTrunc]
    norm_num
  · simp only [moonPhaseText, normalizeProgress, jsMod, jsTrunc]
    norm_num
  · simp only [moonPhaseText, normalizeProgress, jsMod, jsTrunc]
    norm_num
  · simp only [moonPhaseText, normalizeProgress, jsMod, jsTrunc]
    norm_num
  · simp only [moonPhaseText, normalizeProgress, jsMod, jsTrunc]
    norm_num
  · simp only [moonPhaseText, normalizeProgress, jsMod, jsTrunc]
    norm_num

end Celestial
